import Mathlib

/-!
Verification of `src/src/wasm/grapheme_wasm.c` (grapheme-neue): a minimal
foreign-interop shim that allocates a sign-magnitude big-integer record
(`grapheme_bigint`: sign, word_count, allocated_words, words pointer) and
exposes accessors and a destructor.

We shallowly embed the C code over an explicit heap.  Heap blocks live in
association lists keyed by address (`Nat`); allocation nondeterminism
(whether each `malloc` succeeds) and the contents of uninitialized memory
returned by `malloc` are supplied by an `AllocPlan` oracle, so every
execution of the C code corresponds to some plan.  C pointer results are
`Option Nat` (`none` is `NULL`).  C `int` values are modelled as `Int`;
where the C converts an `int` to `size_t` (the argument of `malloc`) we
take the residue modulo `2^64` explicitly.
-/

/-- The C struct `grapheme_bigint` (grapheme_wasm.c lines 3-8): `sign`,
`word_count`, `allocated_words` are C `int` fields, `words` is an `int*`
pointer modelled as the address of a word buffer in the heap. -/
structure grapheme_bigint where
  sign : Int
  word_count : Int
  allocated_words : Int
  words : Nat
  deriving DecidableEq

/-- The heap: allocated `grapheme_bigint` records and allocated word
buffers, each an association list from address to contents, plus a counter
from which fresh addresses are drawn.  A word buffer is a `List Int`
(one entry per `int` slot). -/
structure Heap where
  structs : List (Nat × grapheme_bigint)
  buffers : List (Nat × List Int)
  next : Nat

/-- Association-list lookup by address. -/
def alookup {α : Type} (a : Nat) : List (Nat × α) → Option α
  | [] => none
  | (k, v) :: t => if k = a then some v else alookup a t

/-- Association-list removal of an address (models `free`). -/
def aremove {α : Type} (a : Nat) : List (Nat × α) → List (Nat × α)
  | [] => []
  | (k, v) :: t => if k = a then aremove a t else (k, v) :: aremove a t

/-- Association-list in-place update of the block at an address (models a
store through a pointer). -/
def aupdate {α : Type} (a : Nat) (f : α → α) : List (Nat × α) → List (Nat × α)
  | [] => []
  | (k, v) :: t => if k = a then (k, f v) :: aupdate a f t else (k, v) :: aupdate a f t

/-- Well-formed heap: every allocated address was drawn from the counter,
so `next` is fresh. -/
def Heap.wf (h : Heap) : Prop :=
  (∀ p ∈ h.structs, p.1 < h.next) ∧ (∀ p ∈ h.buffers, p.1 < h.next)

/-- The empty heap (no allocations). -/
def emptyHeap : Heap := ⟨[], [], 0⟩

/-- Allocation oracle for one call to `grapheme_bigint_external_init`,
which performs up to two `malloc`s: whether each succeeds, and the
(uninitialized, arbitrary) contents `malloc` hands back.  C code may not
rely on uninitialized contents, so the oracle choosing them keeps every
real execution representable. -/
structure AllocPlan where
  structOk : Bool
  wordsOk : Bool
  structJunk : grapheme_bigint
  wordsJunk : Nat → Int

/-- Model of `malloc(sizeof(grapheme_bigint))` succeeding: a fresh address
holding uninitialized (junk) contents. -/
def Heap.mallocStruct (h : Heap) (junk : grapheme_bigint) : Nat × Heap :=
  (h.next, { h with structs := (h.next, junk) :: h.structs, next := h.next + 1 })

/-- Model of `malloc(sizeof(int) * n)` succeeding, viewed as `n` `int`
slots with uninitialized (junk) contents. -/
def Heap.mallocWords (h : Heap) (n : Nat) (junk : Nat → Int) : Nat × Heap :=
  (h.next, { h with buffers := (h.next, (List.range n).map junk) :: h.buffers, next := h.next + 1 })

/-- Store through a `grapheme_bigint*` pointer: update the record at the
given address. -/
def Heap.updStruct (h : Heap) (a : Nat) (f : grapheme_bigint → grapheme_bigint) : Heap :=
  { h with structs := aupdate a f h.structs }

/-- Model of `free` on a `grapheme_bigint*`. -/
def Heap.freeStruct (h : Heap) (a : Nat) : Heap :=
  { h with structs := aremove a h.structs }

/-- Model of `free` on a word buffer pointer. -/
def Heap.freeWords (h : Heap) (a : Nat) : Heap :=
  { h with buffers := aremove a h.buffers }

/-- The external caller writing value `v` into slot `i` of the word buffer
at address `ba` (through the pointer returned by
`grapheme_bigint_get_words`). -/
def Heap.writeWord (h : Heap) (ba i : Nat) (v : Int) : Heap :=
  { h with buffers := aupdate ba (fun l => l.set i v) h.buffers }

/-- The external caller reading slot `i` of the word buffer at address
`ba`. -/
def Heap.readWord (h : Heap) (ba i : Nat) : Option Int :=
  (alookup ba h.buffers).bind fun l => l.get? i

/-- Conversion of a C `int` value to `size_t`, as in the argument of
`malloc(sizeof(int) * allocated_words)`: reduction modulo `2^64`. -/
def toSizeT (i : Int) : Nat := (i % ((2 : Int) ^ 64)).toNat

/-- Number of whole `int` slots in the block requested by
`malloc(sizeof(int) * allocated_words)` with `sizeof(int) = 4`: the byte
count is computed in `size_t` arithmetic (modulo `2^64`). -/
def wordSlots (allocated_words : Int) : Nat :=
  4 * toSizeT allocated_words % 2 ^ 64 / 4

/-- `grapheme_bigint_external_init` (grapheme_wasm.c lines 11-28), the
`create` operation, transcribed statement by statement:
`malloc` the record (return `NULL` on failure); store `sign` and
`word_count` into it; if `allocated_words == -1` replace the local
`allocated_words` by `word_count`; `malloc` the word buffer; on failure
`free` the record and return `NULL`; otherwise store the buffer pointer
into `words` and return the record pointer.  Note the C never stores into
the record field `allocated_words`. -/
def grapheme_bigint_external_init (plan : AllocPlan) (h : Heap)
    (sign word_count allocated_words : Int) : Option Nat × Heap :=
  if plan.structOk then
    let ah1 := h.mallocStruct plan.structJunk
    let a := ah1.1
    let h2 := ah1.2.updStruct a fun b => { b with sign := sign }
    let h3 := h2.updStruct a fun b => { b with word_count := word_count }
    let aw := if allocated_words = -1 then word_count else allocated_words
    if plan.wordsOk then
      let wh4 := h3.mallocWords (wordSlots aw) plan.wordsJunk
      let h5 := wh4.2.updStruct a fun b => { b with words := wh4.1 }
      (some a, h5)
    else
      (none, h3.freeStruct a)
  else
    (none, h)

/-- `grapheme_bigint_get_words` (lines 30-32): `return bigint->words;`.
The result is the load of the `words` field; `none` marks the undefined
case of an address not holding a live record. -/
def grapheme_bigint_get_words (h : Heap) (a : Nat) : Option Nat :=
  (alookup a h.structs).map fun b => b.words

/-- `grapheme_bigint_get_sign` (lines 34-36): `return bigint->sign;`. -/
def grapheme_bigint_get_sign (h : Heap) (a : Nat) : Option Int :=
  (alookup a h.structs).map fun b => b.sign

/-- `grapheme_bigint_get_word_count` (lines 38-40):
`return bigint->word_count;`. -/
def grapheme_bigint_get_word_count (h : Heap) (a : Nat) : Option Int :=
  (alookup a h.structs).map fun b => b.word_count

/-- `grapheme_free_bigint` (lines 42-45), the `destroy` operation:
`free(bigint->words); free(bigint);` — load the `words` field, free that
buffer, then free the record.  On an address not holding a live record the
C is undefined; the model leaves the heap unchanged there. -/
def grapheme_free_bigint (h : Heap) (a : Nat) : Heap :=
  match alookup a h.structs with
  | some b => (h.freeWords b.words).freeStruct a
  | none => h

/-! Helper lemmas about the association-list heap primitives. -/

theorem alookup_aupdate_self {α : Type} (a : Nat) (f : α → α) (l : List (Nat × α)) :
    alookup a (aupdate a f l) = (alookup a l).map f := by
  induction l with
  | nil => rfl
  | cons p t ih =>
    by_cases hk : p.1 = a
    · simp [aupdate, alookup, hk]
    · simp [aupdate, alookup, hk, ih]

theorem alookup_aupdate_ne {α : Type} (a a' : Nat) (f : α → α) (l : List (Nat × α))
    (h : a ≠ a') : alookup a' (aupdate a f l) = alookup a' l := by
  induction l with
  | nil => rfl
  | cons p t ih =>
    by_cases hk : p.1 = a
    · simp [aupdate, alookup, hk, h, ih]
    · by_cases hk2 : p.1 = a'
      · simp [aupdate, alookup, hk, hk2, Ne.symm h]
      · simp [aupdate, alookup, hk, hk2, ih]

theorem alookup_aremove_self {α : Type} (a : Nat) (l : List (Nat × α)) :
    alookup a (aremove a l) = none := by
  induction l with
  | nil => rfl
  | cons p t ih =>
    by_cases hk : p.1 = a
    · simp [aremove, hk, ih]
    · simp [aremove, alookup, hk, ih]

theorem alookup_aremove_ne {α : Type} (a a' : Nat) (l : List (Nat × α)) (h : a ≠ a') :
    alookup a' (aremove a l) = alookup a' l := by
  induction l with
  | nil => rfl
  | cons p t ih =>
    by_cases hk : p.1 = a
    · simp [aremove, alookup, hk, h, ih]
    · by_cases hk2 : p.1 = a'
      · simp [aremove, alookup, hk, hk2, Ne.symm h]
      · simp [aremove, alookup, hk, hk2, ih]

theorem aupdate_of_not_mem {α : Type} (a : Nat) (f : α → α) (l : List (Nat × α))
    (h : ∀ p ∈ l, p.1 ≠ a) : aupdate a f l = l := by
  induction l with
  | nil => rfl
  | cons p t ih =>
    have h1 : p.1 ≠ a := h p (List.mem_cons_self p t)
    have h2 : ∀ q ∈ t, q.1 ≠ a := fun q hq => h q (List.mem_cons_of_mem p hq)
    simp [aupdate, h1, ih h2]

theorem aremove_of_not_mem {α : Type} (a : Nat) (l : List (Nat × α))
    (h : ∀ p ∈ l, p.1 ≠ a) : aremove a l = l := by
  induction l with
  | nil => rfl
  | cons p t ih =>
    have h1 : p.1 ≠ a := h p (List.mem_cons_self p t)
    have h2 : ∀ q ∈ t, q.1 ≠ a := fun q hq => h q (List.mem_cons_of_mem p hq)
    simp [aremove, h1, ih h2]

theorem get_set_self (l : List Int) (i : Nat) (v : Int) (h : i < l.length) :
    (l.set i v).get? i = some v := by
  induction l generalizing i with
  | nil => simp at h
  | cons x t ih =>
    cases i with
    | zero => rfl
    | succ j =>
      simp only [List.set, List.get?]
      exact ih j (by simpa using h)

theorem external_init_ok (plan : AllocPlan) (h : Heap) (sign wc aw : Int)
    (hs : plan.structOk = true) (hw : plan.wordsOk = true) (hwf : h.wf) :
    grapheme_bigint_external_init plan h sign wc aw =
      (some h.next,
       ⟨(h.next, ⟨sign, wc, plan.structJunk.allocated_words, h.next + 1⟩) :: h.structs,
        (h.next + 1,
         (List.range (wordSlots (if aw = -1 then wc else aw))).map plan.wordsJunk) :: h.buffers,
        h.next + 2⟩) := by
  have hne : ∀ p ∈ h.structs, p.1 ≠ h.next := fun p hp => Nat.ne_of_lt (hwf.1 p hp)
  simp [grapheme_bigint_external_init, hs, hw, Heap.mallocStruct, Heap.updStruct,
        Heap.mallocWords, aupdate, aupdate_of_not_mem _ _ _ hne]

theorem external_init_nowords (plan : AllocPlan) (h : Heap) (sign wc aw : Int)
    (hs : plan.structOk = true) (hw : plan.wordsOk = false) (hwf : h.wf) :
    grapheme_bigint_external_init plan h sign wc aw =
      (none, ⟨h.structs, h.buffers, h.next + 1⟩) := by
  have hne : ∀ p ∈ h.structs, p.1 ≠ h.next := fun p hp => Nat.ne_of_lt (hwf.1 p hp)
  simp [grapheme_bigint_external_init, hs, hw, Heap.mallocStruct, Heap.updStruct,
        Heap.freeStruct, aupdate, aremove, aupdate_of_not_mem _ _ _ hne,
        aremove_of_not_mem _ _ hne]

theorem wordSlots_of_small (aw : Int) (h0 : 0 ≤ aw) (h1 : aw < 2 ^ 62) :
    wordSlots aw = aw.toNat := by
  have hmod : aw % ((2 : Int) ^ 64) = aw :=
    Int.emod_eq_of_lt h0 (lt_trans h1 (by norm_num))
  have htn : aw.toNat < 2 ^ 62 := by omega
  unfold wordSlots toSizeT
  rw [hmod]
  have h4 : 4 * aw.toNat < 2 ^ 64 := by omega
  rw [Nat.mod_eq_of_lt h4]
  omega

theorem emptyHeap_wf : emptyHeap.wf := by
  constructor <;> simp [emptyHeap]

/-- Concrete allocation plan on which both `malloc`s succeed; the junk that
`malloc` leaves in the uninitialized record has `999` in the
`allocated_words` field. -/
def planOk : AllocPlan := ⟨true, true, ⟨0, 0, 999, 0⟩, fun _ => 0⟩

/-- Concrete allocation plan on which the record `malloc` succeeds but the
word-buffer `malloc` fails. -/
def planNoWords : AllocPlan := ⟨true, false, ⟨0, 0, 999, 0⟩, fun _ => 0⟩

/-- Claim C1: for every sign, every `word_count ≥ 0`, and every
`allocated_words` that is either `≥ word_count` or the sentinel `-1`, if
no allocation fails then `create` returns a non-null handle on which
`get_word_count` returns the given `word_count` and `get_sign` returns the
given sign. -/
theorem create_success_sign_and_word_count
    (plan : AllocPlan) (h : Heap) (sign wc aw : Int)
    (hwf : h.wf) (hs : plan.structOk = true) (hw : plan.wordsOk = true)
    (hwc : 0 ≤ wc) (haw : aw = -1 ∨ wc ≤ aw) :
    ∃ a : Nat,
      (grapheme_bigint_external_init plan h sign wc aw).1 = some a ∧
      grapheme_bigint_get_word_count
        (grapheme_bigint_external_init plan h sign wc aw).2 a = some wc ∧
      grapheme_bigint_get_sign
        (grapheme_bigint_external_init plan h sign wc aw).2 a = some sign := by
  refine ⟨h.next, ?_⟩
  rw [external_init_ok plan h sign wc aw hs hw hwf]
  simp [grapheme_bigint_get_word_count, grapheme_bigint_get_sign, alookup]

theorem create_success_sign_and_word_count_witness :
    ∃ a : Nat,
      (grapheme_bigint_external_init planOk emptyHeap 1 2 4).1 = some a ∧
      grapheme_bigint_get_word_count
        (grapheme_bigint_external_init planOk emptyHeap 1 2 4).2 a = some 2 ∧
      grapheme_bigint_get_sign
        (grapheme_bigint_external_init planOk emptyHeap 1 2 4).2 a = some 1 :=
  create_success_sign_and_word_count planOk emptyHeap 1 2 4
    emptyHeap_wf rfl rfl (by norm_num) (Or.inr (by norm_num))

/-- Claim C2 fails on the code: `grapheme_bigint_external_init` never
stores into the record field `allocated_words` (line 19 of the C only
reassigns the local parameter), so the field keeps whatever uninitialized
value `malloc` returned.  Here: `create(sign=1, word_count=2,
allocated_words=4)` on an execution where the junk in that field is `999`
yields a handle whose word buffer has capacity 4 but whose
`allocated_words` field reads `999`, contradicting the invariant that the
field equals the buffer capacity.  The struct declaration documents the
field as "Size of words", so the missing store is a slip in the code. -/
theorem allocated_words_field_uninitialized :
    (grapheme_bigint_external_init planOk emptyHeap 1 2 4).1 = some 0 ∧
    ((alookup 0 (grapheme_bigint_external_init planOk emptyHeap 1 2 4).2.structs).map
      fun b => b.allocated_words) = some 999 ∧
    ((alookup 1 (grapheme_bigint_external_init planOk emptyHeap 1 2 4).2.buffers).map
      List.length) = some 4 ∧
    (999 : Int) ≠ (4 : Int) := by
  refine ⟨?_, ?_, ?_, by norm_num⟩ <;> decide

/-- Claim C3: when the record allocation succeeds but the word-buffer
allocation fails, `create` releases the already-allocated record and
returns `NULL`: the result is null and the heap holds exactly the
allocations it held before the call (nothing leaks). -/
theorem create_releases_record_on_buffer_failure
    (plan : AllocPlan) (h : Heap) (sign wc aw : Int)
    (hwf : h.wf) (hs : plan.structOk = true) (hw : plan.wordsOk = false) :
    (grapheme_bigint_external_init plan h sign wc aw).1 = none ∧
    (grapheme_bigint_external_init plan h sign wc aw).2.structs = h.structs ∧
    (grapheme_bigint_external_init plan h sign wc aw).2.buffers = h.buffers := by
  rw [external_init_nowords plan h sign wc aw hs hw hwf]
  exact ⟨rfl, rfl, rfl⟩

theorem create_releases_record_on_buffer_failure_witness :
    (grapheme_bigint_external_init planNoWords emptyHeap 1 2 4).1 = none ∧
    (grapheme_bigint_external_init planNoWords emptyHeap 1 2 4).2.structs = emptyHeap.structs ∧
    (grapheme_bigint_external_init planNoWords emptyHeap 1 2 4).2.buffers = emptyHeap.buffers :=
  create_releases_record_on_buffer_failure planNoWords emptyHeap 1 2 4
    emptyHeap_wf rfl rfl

/-- Claim C4: for every handle created with `allocated_words` equal to the
sentinel `-1`, the word buffer allocated by `create` has length exactly
`word_count` (no slack capacity).  `word_count` ranges over C `int`
values, hence the bound `word_count < 2^31`. -/
theorem create_sentinel_exact_capacity
    (plan : AllocPlan) (h : Heap) (sign wc : Int)
    (hwf : h.wf) (hs : plan.structOk = true) (hw : plan.wordsOk = true)
    (h0 : 0 ≤ wc) (h1 : wc < 2 ^ 31) :
    ∃ a ba : Nat,
      (grapheme_bigint_external_init plan h sign wc (-1)).1 = some a ∧
      grapheme_bigint_get_words
        (grapheme_bigint_external_init plan h sign wc (-1)).2 a = some ba ∧
      ((alookup ba (grapheme_bigint_external_init plan h sign wc (-1)).2.buffers).map
        List.length) = some wc.toNat := by
  refine ⟨h.next, h.next + 1, ?_⟩
  rw [external_init_ok plan h sign wc (-1) hs hw hwf]
  simp [grapheme_bigint_get_words, alookup,
        wordSlots_of_small wc h0 (lt_trans h1 (by norm_num))]

theorem create_sentinel_exact_capacity_witness :
    ∃ a ba : Nat,
      (grapheme_bigint_external_init planOk emptyHeap 0 3 (-1)).1 = some a ∧
      grapheme_bigint_get_words
        (grapheme_bigint_external_init planOk emptyHeap 0 3 (-1)).2 a = some ba ∧
      ((alookup ba (grapheme_bigint_external_init planOk emptyHeap 0 3 (-1)).2.buffers).map
        List.length) = some (3 : Int).toNat :=
  create_sentinel_exact_capacity planOk emptyHeap 0 3
    emptyHeap_wf rfl rfl (by norm_num) (by norm_num)

/-- Claim C5: on a freshly created live handle (valid arguments:
`0 ≤ word_count < 2^31` and `allocated_words` either the sentinel `-1` or
in `[word_count, 2^31)`, both C `int` ranges), `get_words` returns a
reference to a buffer of exactly `allocated_words` slots (effective
capacity: `word_count` when the sentinel was passed), and writing value
`v` to any slot `i < allocated_words` through that reference and reading
slot `i` back yields `v`. -/
theorem get_words_capacity_and_roundtrip
    (plan : AllocPlan) (h : Heap) (sign wc aw : Int) (i : Nat) (v : Int)
    (hwf : h.wf) (hs : plan.structOk = true) (hw : plan.wordsOk = true)
    (h0 : 0 ≤ wc) (h1 : wc < 2 ^ 31)
    (haw : aw = -1 ∨ (wc ≤ aw ∧ aw < 2 ^ 31))
    (hi : i < (if aw = -1 then wc else aw).toNat) :
    ∃ a ba : Nat,
      (grapheme_bigint_external_init plan h sign wc aw).1 = some a ∧
      grapheme_bigint_get_words
        (grapheme_bigint_external_init plan h sign wc aw).2 a = some ba ∧
      ((alookup ba (grapheme_bigint_external_init plan h sign wc aw).2.buffers).map
        List.length) = some (if aw = -1 then wc else aw).toNat ∧
      Heap.readWord
        (Heap.writeWord (grapheme_bigint_external_init plan h sign wc aw).2 ba i v)
        ba i = some v := by
  have hbounds : 0 ≤ (if aw = -1 then wc else aw) ∧ (if aw = -1 then wc else aw) < 2 ^ 31 := by
    by_cases hcase : aw = -1
    · simpa [hcase] using ⟨h0, h1⟩
    · rcases haw with h' | ⟨h2, h3⟩
      · exact absurd h' hcase
      · simpa [hcase] using ⟨le_trans h0 h2, h3⟩
  have hlen : wordSlots (if aw = -1 then wc else aw) = (if aw = -1 then wc else aw).toNat :=
    wordSlots_of_small _ hbounds.1 (lt_trans hbounds.2 (by norm_num))
  have hget : (((List.range (wordSlots (if aw = -1 then wc else aw))).map
      plan.wordsJunk).set i v).get? i = some v :=
    get_set_self _ i v (by simpa [hlen] using hi)
  refine ⟨h.next, h.next + 1, ?_⟩
  rw [external_init_ok plan h sign wc aw hs hw hwf]
  refine ⟨rfl, ?_, ?_, ?_⟩
  · simp [grapheme_bigint_get_words, alookup]
  · simp [alookup, hlen]
  · simp [Heap.readWord, Heap.writeWord, aupdate, alookup]
    simpa using hget

theorem get_words_capacity_and_roundtrip_witness :
    ∃ a ba : Nat,
      (grapheme_bigint_external_init planOk emptyHeap 1 2 4).1 = some a ∧
      grapheme_bigint_get_words
        (grapheme_bigint_external_init planOk emptyHeap 1 2 4).2 a = some ba ∧
      ((alookup ba (grapheme_bigint_external_init planOk emptyHeap 1 2 4).2.buffers).map
        List.length) = some (if (4 : Int) = -1 then (2 : Int) else 4).toNat ∧
      Heap.readWord
        (Heap.writeWord (grapheme_bigint_external_init planOk emptyHeap 1 2 4).2 ba 3 7)
        ba 3 = some 7 :=
  get_words_capacity_and_roundtrip planOk emptyHeap 1 2 4 3 7
    emptyHeap_wf rfl rfl (by norm_num) (by norm_num)
    (Or.inr (by norm_num)) (by norm_num)

/-- Concrete heap holding one live handle at address 0 whose word buffer
of capacity 4 sits at address 1 (the heap produced by
`create(sign=1, word_count=2, allocated_words=4)` up to junk values). -/
def liveHeap : Heap := ⟨[(0, ⟨1, 2, 4, 1⟩)], [(1, [0, 0, 0, 0])], 2⟩

/-- Claim C6: the only error in the interface is allocation failure, which
can arise only in `create` and is signaled by a `NULL` return (result
`none`), never by an exception or panic: `create` returns `NULL` exactly
when one of its two `malloc`s fails, and on a live handle `get_words`,
`get_sign` and `get_word_count` always produce a value.
`grapheme_free_bigint` is a total function into `Heap`, so by its very
type it has no error path either. -/
theorem allocation_failure_is_only_error
    (plan : AllocPlan) (h : Heap) (sign wc aw : Int) (a : Nat) (b : grapheme_bigint)
    (hlive : alookup a h.structs = some b) :
    ((grapheme_bigint_external_init plan h sign wc aw).1 = none ↔
      plan.structOk = false ∨ plan.wordsOk = false) ∧
    (grapheme_bigint_get_words h a).isSome ∧
    (grapheme_bigint_get_sign h a).isSome ∧
    (grapheme_bigint_get_word_count h a).isSome := by
  refine ⟨?_, ?_, ?_, ?_⟩
  · cases hs : plan.structOk <;> cases hw : plan.wordsOk <;>
      simp [grapheme_bigint_external_init, hs, hw, Heap.mallocStruct,
            Heap.updStruct, Heap.mallocWords, Heap.freeStruct]
  · simp [grapheme_bigint_get_words, hlive]
  · simp [grapheme_bigint_get_sign, hlive]
  · simp [grapheme_bigint_get_word_count, hlive]

theorem allocation_failure_is_only_error_witness :
    ((grapheme_bigint_external_init planNoWords liveHeap 1 2 4).1 = none ↔
      planNoWords.structOk = false ∨ planNoWords.wordsOk = false) ∧
    (grapheme_bigint_get_words liveHeap 0).isSome ∧
    (grapheme_bigint_get_sign liveHeap 0).isSome ∧
    (grapheme_bigint_get_word_count liveHeap 0).isSome :=
  allocation_failure_is_only_error planNoWords liveHeap 1 2 4 0 ⟨1, 2, 4, 1⟩ (by decide)

/-- Claim C7: on a live handle, `destroy` releases the word buffer and
then the handle record, in that order (the computation is literally
`freeStruct` applied after `freeWords`); afterwards neither the record
address nor the buffer address is allocated, while any other record
address `c` and buffer address `w` are untouched. -/
theorem free_releases_words_then_record
    (h : Heap) (a : Nat) (b : grapheme_bigint) (c w : Nat)
    (hlive : alookup a h.structs = some b) (hc : c ≠ a) (hw : w ≠ b.words) :
    grapheme_free_bigint h a = Heap.freeStruct (Heap.freeWords h b.words) a ∧
    alookup a (grapheme_free_bigint h a).structs = none ∧
    alookup b.words (grapheme_free_bigint h a).buffers = none ∧
    alookup c (grapheme_free_bigint h a).structs = alookup c h.structs ∧
    alookup w (grapheme_free_bigint h a).buffers = alookup w h.buffers := by
  have hd : grapheme_free_bigint h a = Heap.freeStruct (Heap.freeWords h b.words) a := by
    simp [grapheme_free_bigint, hlive]
  refine ⟨hd, ?_, ?_, ?_, ?_⟩ <;>
    simp [hd, Heap.freeStruct, Heap.freeWords, alookup_aremove_self,
          alookup_aremove_ne _ _ _ (Ne.symm hc), alookup_aremove_ne _ _ _ (Ne.symm hw)]

theorem free_releases_words_then_record_witness :
    grapheme_free_bigint liveHeap 0 =
      Heap.freeStruct (Heap.freeWords liveHeap (grapheme_bigint.mk 1 2 4 1).words) 0 ∧
    alookup 0 (grapheme_free_bigint liveHeap 0).structs = none ∧
    alookup (grapheme_bigint.mk 1 2 4 1).words
      (grapheme_free_bigint liveHeap 0).buffers = none ∧
    alookup 5 (grapheme_free_bigint liveHeap 0).structs = alookup 5 liveHeap.structs ∧
    alookup 7 (grapheme_free_bigint liveHeap 0).buffers = alookup 7 liveHeap.buffers :=
  free_releases_words_then_record liveHeap 0 ⟨1, 2, 4, 1⟩ 5 7
    (by decide) (by decide) (by decide)

/-- Claim C8: `create` performs no validation of its arguments: for every
integer `sign` (also values outside `{-1, 0, 1}`) and every
`allocated_words ≠ -1` (also values smaller than `word_count`), when the
allocations succeed the call is not rejected — it returns a non-null
handle storing `sign` and `word_count` verbatim, and `get_sign` returns
exactly the stored sign. -/
theorem create_no_validation_verbatim_store
    (plan : AllocPlan) (h : Heap) (sign wc aw : Int)
    (hwf : h.wf) (hs : plan.structOk = true) (hw : plan.wordsOk = true)
    (haw : aw ≠ -1) :
    (grapheme_bigint_external_init plan h sign wc aw).1 = some h.next ∧
    grapheme_bigint_get_sign
      (grapheme_bigint_external_init plan h sign wc aw).2 h.next = some sign ∧
    grapheme_bigint_get_word_count
      (grapheme_bigint_external_init plan h sign wc aw).2 h.next = some wc := by
  rw [external_init_ok plan h sign wc aw hs hw hwf]
  simp [grapheme_bigint_get_sign, grapheme_bigint_get_word_count, alookup]

theorem create_no_validation_verbatim_store_witness :
    (grapheme_bigint_external_init planOk emptyHeap 5 3 2).1 = some emptyHeap.next ∧
    grapheme_bigint_get_sign
      (grapheme_bigint_external_init planOk emptyHeap 5 3 2).2 emptyHeap.next = some 5 ∧
    grapheme_bigint_get_word_count
      (grapheme_bigint_external_init planOk emptyHeap 5 3 2).2 emptyHeap.next = some 3 :=
  create_no_validation_verbatim_store planOk emptyHeap 5 3 2
    emptyHeap_wf rfl rfl (by norm_num)

theorem writes_preserve_structs (h : Heap) (ws : List (Nat × Nat × Int)) :
    (ws.foldl (fun hh t => Heap.writeWord hh t.1 t.2.1 t.2.2) h).structs = h.structs := by
  induction ws generalizing h with
  | nil => rfl
  | cons t ts ih => simpa [List.foldl, Heap.writeWord] using ih (h.writeWord t.1 t.2.1 t.2.2)

/-- Claim C9 (implicit): the `sign` and `word_count` fields set by
`create` are never written again by any operation of the interface.
`get_words`, `get_sign` and `get_word_count` are loads, modelled as pure
functions of the heap, so they modify nothing by construction; external
writes through the `get_words` pointer (any sequence `ws` of them) leave
every record intact, so `get_sign`/`get_word_count` still return the
stored values; and `destroy` of a different handle `c` leaves the record
at `a` intact as well. -/
theorem interface_preserves_fields
    (h : Heap) (a c : Nat) (b : grapheme_bigint) (ws : List (Nat × Nat × Int))
    (hlive : alookup a h.structs = some b) (hc : c ≠ a) :
    alookup a ((ws.foldl (fun hh t => Heap.writeWord hh t.1 t.2.1 t.2.2) h).structs)
      = some b ∧
    grapheme_bigint_get_sign
      (ws.foldl (fun hh t => Heap.writeWord hh t.1 t.2.1 t.2.2) h) a = some b.sign ∧
    grapheme_bigint_get_word_count
      (ws.foldl (fun hh t => Heap.writeWord hh t.1 t.2.1 t.2.2) h) a = some b.word_count ∧
    grapheme_bigint_get_sign h a = some b.sign ∧
    grapheme_bigint_get_word_count h a = some b.word_count ∧
    alookup a (grapheme_free_bigint h c).structs = some b := by
  have hws := writes_preserve_structs h ws
  have hfree : alookup a (grapheme_free_bigint h c).structs = some b := by
    cases hcl : alookup c h.structs with
    | none => simp [grapheme_free_bigint, hcl, hlive]
    | some b2 =>
      simp [grapheme_free_bigint, hcl, Heap.freeStruct, Heap.freeWords,
            alookup_aremove_ne _ _ _ hc, hlive]
  refine ⟨by rw [hws]; exact hlive, ?_, ?_, ?_, ?_, hfree⟩ <;>
    simp [grapheme_bigint_get_sign, grapheme_bigint_get_word_count, hws, hlive]

theorem interface_preserves_fields_witness :
    alookup 0 (([((1 : Nat), (0 : Nat), (7 : Int))].foldl
      (fun hh t => Heap.writeWord hh t.1 t.2.1 t.2.2) liveHeap).structs)
      = some (grapheme_bigint.mk 1 2 4 1) ∧
    grapheme_bigint_get_sign
      ([((1 : Nat), (0 : Nat), (7 : Int))].foldl
        (fun hh t => Heap.writeWord hh t.1 t.2.1 t.2.2) liveHeap) 0
      = some (grapheme_bigint.mk 1 2 4 1).sign ∧
    grapheme_bigint_get_word_count
      ([((1 : Nat), (0 : Nat), (7 : Int))].foldl
        (fun hh t => Heap.writeWord hh t.1 t.2.1 t.2.2) liveHeap) 0
      = some (grapheme_bigint.mk 1 2 4 1).word_count ∧
    grapheme_bigint_get_sign liveHeap 0 = some (grapheme_bigint.mk 1 2 4 1).sign ∧
    grapheme_bigint_get_word_count liveHeap 0
      = some (grapheme_bigint.mk 1 2 4 1).word_count ∧
    alookup 0 (grapheme_free_bigint liveHeap 5).structs
      = some (grapheme_bigint.mk 1 2 4 1) :=
  interface_preserves_fields liveHeap 0 5 ⟨1, 2, 4, 1⟩
    [((1 : Nat), (0 : Nat), (7 : Int))] (by decide) (by decide)

/-- Claim C10 (implicit): with `word_count = 0` and the sentinel
`allocated_words = -1`, `create` requests a zero-size buffer allocation
(`wordSlots 0 = 0` slots).  If that zero-size `malloc` yields `NULL`, the
code treats it as an allocation failure: it frees the record and returns
`NULL`, leaving the heap with exactly its prior allocations.  A
zero-capacity handle (empty buffer) is returned only when the zero-size
allocation yields a non-null pointer. -/
theorem create_zero_size_buffer
    (plan : AllocPlan) (h : Heap) (sign : Int)
    (hwf : h.wf) (hs : plan.structOk = true) :
    wordSlots 0 = 0 ∧
    grapheme_bigint_external_init plan h sign 0 (-1) =
      (if plan.wordsOk then
        (some h.next,
         ⟨(h.next, ⟨sign, 0, plan.structJunk.allocated_words, h.next + 1⟩) :: h.structs,
          (h.next + 1, []) :: h.buffers, h.next + 2⟩)
       else (none, ⟨h.structs, h.buffers, h.next + 1⟩)) := by
  have hws0 : wordSlots 0 = 0 := by decide
  refine ⟨hws0, ?_⟩
  cases hw : plan.wordsOk with
  | false => rw [external_init_nowords plan h sign 0 (-1) hs hw hwf]; simp
  | true => rw [external_init_ok plan h sign 0 (-1) hs hw hwf]; simp [hws0]

theorem create_zero_size_buffer_witness :
    wordSlots 0 = 0 ∧
    grapheme_bigint_external_init planOk emptyHeap 0 0 (-1) =
      (if planOk.wordsOk then
        (some emptyHeap.next,
         ⟨(emptyHeap.next,
           ⟨0, 0, planOk.structJunk.allocated_words, emptyHeap.next + 1⟩) :: emptyHeap.structs,
          (emptyHeap.next + 1, []) :: emptyHeap.buffers, emptyHeap.next + 2⟩)
       else (none, ⟨emptyHeap.structs, emptyHeap.buffers, emptyHeap.next + 1⟩)) :=
  create_zero_size_buffer planOk emptyHeap 0 emptyHeap_wf rfl
